import Mathlib

/-!
# chat-media-bucket: verification of the upload/delete request pipeline

Shallow embedding of the Express file-storage service:
`src/routes/files.js` (authenticate, multer configuration, upload and
delete routes), `src/middleware/validation.js` (validateFilename,
validateFileUpload), `src/middleware/errorHandler.js` (central error
responder) and `src/config/environment.js` (AUTH_TOKEN may be absent).

JavaScript-specific behaviour is embedded explicitly: template-literal
rendering of `undefined` as the string "undefined", truthiness of header
and query values, `String.prototype.trim`, `path.extname`, and
`path.join` segment normalization (trailing separators are not
preserved by the model; no claim exercises them).
-/

namespace ChatMediaBucket

/-- Rendering of a possibly-undefined JS value inside a template literal:
`` `Bearer ${environment.authToken}` `` prints `undefined` as the literal
string "undefined" when AUTH_TOKEN is not set. -/
def jsTemplate : Option String → String
  | none => "undefined"
  | some s => s

/-- Result of the `authenticate` middleware in `src/routes/files.js`
(lines 14-41): 401 "Missing authorization", 401 "Invalid token", or
pass-through to the next handler. -/
inductive AuthResult where
  | missingAuth
  | invalidToken
  | pass
deriving DecidableEq, Repr

/-- Middleware authenticate(req, res, next) from `src/routes/files.js`:
`const token = req.headers['authorization']; if (!token) ...` — a missing
header is `undefined` (falsy) and a present empty header is `""` (also
falsy); otherwise the header is compared verbatim against the template
literal `Bearer ${environment.authToken}`. -/
def authenticate (authToken : Option String) (header : Option String) : AuthResult :=
  match header with
  | none => .missingAuth
  | some t =>
    if t = "" then .missingAuth
    else if t ≠ "Bearer " ++ jsTemplate authToken then .invalidToken
    else .pass

/-- Shape of an Express query-parameter value as produced by the `qs`
parser: absent (`undefined`), a string, an array (repeated parameter),
or a nested object. -/
inductive QueryVal where
  | undef
  | str (s : String)
  | arr (vs : List String)
  | obj (fields : List (String × String))
deriving DecidableEq, Repr

/-- JS truthiness of a query value: `undefined` and `""` are falsy;
arrays and objects (even empty ones) are truthy. -/
def jsTruthyQuery : QueryVal → Bool
  | .undef => false
  | .str s => decide (s ≠ "")
  | .arr _ => true
  | .obj _ => true

/-- JS test for typeof v === 'string'. -/
def isStringVal : QueryVal → Bool
  | .str _ => true
  | _ => false

/-- Whitespace characters removed by `String.prototype.trim`. -/
def isJsWhitespace (c : Char) : Bool :=
  c = ' ' || c = '\t' || c = '\n' || c = '\r' || c = '\x0b' || c = '\x0c' || c = ' '

/-- JS s.trim(): strip leading and trailing whitespace. -/
def jsTrim (s : String) : String :=
  String.mk (((s.toList.dropWhile isJsWhitespace).reverse.dropWhile isJsWhitespace).reverse)

/-- Result of the `validateFilename` middleware in
`src/middleware/validation.js`: 400 "Missing required parameter",
400 "Invalid parameter", or success exposing `req.filename`. -/
inductive FilenameCheck where
  | missingParameter
  | invalidParameter
  | ok (trimmed : String)
deriving DecidableEq, Repr

/-- The validateFilename middleware from `src/middleware/validation.js`:
`if (!filename)` → missing; `if (typeof filename !== 'string' ||
filename.trim().length === 0)` → invalid; else `req.filename =
filename.trim()`. -/
def validateFilename (filename : QueryVal) : FilenameCheck :=
  if !(jsTruthyQuery filename) then .missingParameter
  else
    match filename with
    | .str s => if (jsTrim s).length = 0 then .invalidParameter else .ok (jsTrim s)
    | _ => .invalidParameter

/-- One file part of a multipart/form-data request body, as seen by
multer/busboy: the form field name, the client-supplied original file
name, the declared MIME type, and the byte length of the part. -/
structure FilePart where
  fieldname : String
  originalname : String
  mimetype : String
  size : Nat
deriving DecidableEq, Repr

/-- The MIME allow-list, written twice in the source (the multer
`fileFilter` in `src/routes/files.js` and `validateFileUpload` in
`src/middleware/validation.js`), identical in both places. -/
def allowedMimeTypes : List String :=
  ["image/jpeg", "image/png", "image/gif", "image/webp", "application/pdf",
   "text/plain", "application/json", "text/csv", "application/vnd.ms-excel",
   "application/vnd.openxmlformats-officedocument.spreadsheetml.sheet"]

/-- The multer limit `fileSize: 10 * 1024 * 1024` from `src/routes/files.js`. -/
def fileSizeLimit : Nat := 10 * 1024 * 1024

/-- The multer `fileFilter` callback accepts a file iff its declared
MIME type is in the allow-list; otherwise it calls
`cb(new Error('Unsupported file type'), false)`. -/
def fileFilterAccepts (f : FilePart) : Bool :=
  allowedMimeTypes.contains f.mimetype

/-- Outcome of `upload.single('file')` (multer with
`limits: {fileSize: 10 MiB, files: 1}` and the MIME `fileFilter`):
either a single accepted file (written to disk under the generated
name), no file part at all (the route continues with `req.file`
undefined), a MulterError (`LIMIT_FILE_SIZE`, `LIMIT_FILE_COUNT`,
`LIMIT_UNEXPECTED_FILE`), or the plain `Error('Unsupported file type')`
raised by the repository's `fileFilter`. -/
inductive MulterResult where
  | accepted (f : FilePart)
  | noFile
  | limitFileSize
  | limitFileCount
  | limitUnexpectedFile
  | fileFilterError
deriving DecidableEq, Repr

/-- Processing of one emitted file part, in multer's order: the
`.single('file')` field-name check (`LIMIT_UNEXPECTED_FILE`) happens
when the part's headers arrive, then the repository's `fileFilter`
decides acceptance, and only then is the part's data streamed, during
which busboy enforces the 10 MiB `fileSize` limit
(`LIMIT_FILE_SIZE`). -/
def processFilePart (f : FilePart) : MulterResult :=
  if f.fieldname ≠ "file" then .limitUnexpectedFile
  else if !(fileFilterAccepts f) then .fileFilterError
  else if f.size > fileSizeLimit then .limitFileSize
  else .accepted f

/-- Behaviour of `upload.single('file')` over the ordered list of file parts of the
body: no part leaves `req.file` undefined; one part is processed as
above; with a second part, busboy's global `files: 1` limit fires when
the second part arrives (`LIMIT_FILE_COUNT`) — unless the first part
already aborted the parse, in which case its error stands. On any
error multer removes files it had already written, so an erroring
request persists nothing. -/
def multerSingleFile : List FilePart → MulterResult
  | [] => .noFile
  | [f] => processFilePart f
  | f :: _ :: _ =>
    match processFilePart f with
    | .accepted _ => .limitFileCount
    | r => r

/-- Result of the `validateFileUpload` middleware in
`src/middleware/validation.js`. -/
inductive UploadValidation where
  | noFileUploaded
  | unsupportedFileType
  | valid
deriving DecidableEq, Repr

/-- The validateFileUpload middleware: 400 "No file uploaded" if `req.file` is
undefined, 400 "Unsupported file type" if the declared MIME type is
outside the allow-list, else pass-through. -/
def validateFileUpload (file : Option FilePart) : UploadValidation :=
  match file with
  | none => .noFileUploaded
  | some f =>
    if !(allowedMimeTypes.contains f.mimetype) then .unsupportedFileType
    else .valid

/-- The duck-typed error object inspected by the central
`errorHandler` middleware. -/
structure JsError where
  isMulterError : Bool
  code : Option String
  name : String
  message : String
deriving DecidableEq, Repr

/-- The errorHandler middleware from `src/middleware/errorHandler.js`, installed
last by `app.use(errorHandler)`: MulterError codes map to 413/413/400,
`ValidationError` to 400, `ENOENT` to 404, `EACCES` to 403, and
anything else to 500 "Internal server error". Returns (status, the
`error` field of the JSON body). -/
def errorHandler (e : JsError) : Nat × String :=
  if e.isMulterError then
    if e.code = some "LIMIT_FILE_SIZE" then (413, "File too large")
    else if e.code = some "LIMIT_FILE_COUNT" then (413, "Too many files")
    else if e.code = some "LIMIT_UNEXPECTED_FILE" then (400, "Invalid field name")
    else (400, "Upload error")
  else if e.name = "ValidationError" then (400, "Validation error")
  else if e.code = some "ENOENT" then (404, "File not found")
  else if e.code = some "EACCES" then (403, "Permission denied")
  else (500, "Internal server error")

/-- The `MulterError` object multer raises for a given code. -/
def multerErrorObj (code : String) : JsError :=
  { isMulterError := true, code := some code, name := "MulterError", message := code }

/-- The error produced by the repository's `fileFilter`:
`new Error('Unsupported file type')` — a plain `Error`, not a
`MulterError`, with no `code` property. -/
def fileFilterErrorObj : JsError :=
  { isMulterError := false, code := none, name := "Error", message := "Unsupported file type" }

/-- Characters of the basename: everything after the last `/`. -/
def basenameChars (l : List Char) : List Char :=
  ((l.reverse.takeWhile (fun c => c ≠ '/')).reverse)

/-- Node path.extname (posix): the substring of the basename from
its last `.` to the end; empty when the basename has no dot, when its
only candidate dot is its first character, or when the basename is
exactly `..`. Case is preserved and the leading dot is included. -/
def extname (p : String) : String :=
  let b := basenameChars p.toList
  let suffix := b.reverse.takeWhile (fun c => c ≠ '.')
  if suffix.length = b.length then ""
  else
    let i := b.length - suffix.length - 1
    if i = 0 then ""
    else if b = ['.', '.'] then ""
    else String.mk (b.drop i)

/-- The storage.filename callback in `src/routes/files.js`:
`` `${uuidv4()}${path.extname(file.originalname)}` `` — the fresh
random identifier (modelled as the parameter `uuid`) concatenated with
the original name's extension. -/
def generatedFilename (uuid : String) (originalname : String) : String :=
  uuid ++ extname originalname

/-- Split a list of characters on `/`. -/
def splitSlashChars : List Char → List (List Char)
  | [] => [[]]
  | c :: cs =>
    let r := splitSlashChars cs
    if c = '/' then [] :: r
    else
      match r with
      | [] => [[c]]
      | g :: gs => (c :: g) :: gs

/-- Split a path string into its `/`-separated segments. -/
def splitSlash (s : String) : List String :=
  (splitSlashChars s.toList).map String.mk

/-- One step of Node's `normalizeString`: empty and `.` segments are
dropped; `..` pops the previous segment when one is available, is kept
at the front of a relative path, and is discarded at the root of an
absolute path; any other segment is pushed. The accumulator holds the
kept segments in reverse. -/
def pushSeg (allowAbove : Bool) (stack : List String) (seg : String) : List String :=
  if seg = "" || seg = "." then stack
  else if seg = ".." then
    match stack with
    | [] => if allowAbove then [".."] else []
    | top :: rest => if top = ".." then (if allowAbove then seg :: stack else stack) else rest
  else seg :: stack

/-- Normalize a segment list (`allowAbove` = the path is relative). -/
def normalizeSegs (allowAbove : Bool) (segs : List String) : List String :=
  (segs.foldl (pushSeg allowAbove) []).reverse

/-- Whether a path string is absolute (its first character is `/`). -/
def isAbsolutePath (s : String) : Bool :=
  match s.toList with
  | [] => false
  | c :: _ => c = '/'

/-- Node path.join(a, b) (posix, two arguments): concatenate with a
`/` and normalize, resolving `.` and `..` segments against the prefix.
The model does not preserve a trailing separator. -/
def pathJoin (a b : String) : String :=
  let joined := if a = "" then b else if b = "" then a else a ++ "/" ++ b
  let abs := isAbsolutePath joined
  let core := String.intercalate "/" (normalizeSegs (!abs) (splitSlash joined))
  if abs then "/" ++ core
  else if core = "" then "." else core

/-- Everything the upload route sends back, plus the list of files the
request persisted into the storage root (generated name, size). -/
structure UploadOutcome where
  status : Nat
  errorField : Option String
  filePath : Option String
  filename : Option String
  size : Option Nat
  written : List (String × Nat)
deriving DecidableEq, Repr

/-- An error response of the upload pipeline as formatted by the
central `errorHandler`; an erroring multipart parse persists no file
(multer removes anything it had written before the error). -/
def errorReply (e : JsError) : UploadOutcome :=
  let r := errorHandler e
  { status := r.fst, errorField := some r.snd, filePath := none,
    filename := none, size := none, written := [] }

/-- The upload route `router.post('/upload', authenticate, upload.single('file'),
validateFileUpload, handler)` from `src/routes/files.js`: the stages
run in that order, each failing stage responds without invoking the
later ones, multer errors skip to the central `errorHandler`, and the
final handler responds 200 with
`{filePath: BASE_URL + '/files/' + filename, filename, originalname,
size, mimetype}`. `uuid` is the fresh identifier drawn by
`storage.filename` for this request. -/
def uploadRoute (authToken : Option String) (baseUrl : String)
    (header : Option String) (parts : List FilePart) (uuid : String) : UploadOutcome :=
  match authenticate authToken header with
  | .missingAuth =>
    { status := 401, errorField := some "Missing authorization", filePath := none,
      filename := none, size := none, written := [] }
  | .invalidToken =>
    { status := 401, errorField := some "Invalid token", filePath := none,
      filename := none, size := none, written := [] }
  | .pass =>
    match multerSingleFile parts with
    | .noFile =>
      { status := 400, errorField := some "No file uploaded", filePath := none,
        filename := none, size := none, written := [] }
    | .limitFileSize => errorReply (multerErrorObj "LIMIT_FILE_SIZE")
    | .limitFileCount => errorReply (multerErrorObj "LIMIT_FILE_COUNT")
    | .limitUnexpectedFile => errorReply (multerErrorObj "LIMIT_UNEXPECTED_FILE")
    | .fileFilterError => errorReply fileFilterErrorObj
    | .accepted f =>
      let storedName := generatedFilename uuid f.originalname
      match validateFileUpload (some f) with
      | .noFileUploaded =>
        { status := 400, errorField := some "No file uploaded", filePath := none,
          filename := none, size := none, written := [(storedName, f.size)] }
      | .unsupportedFileType =>
        { status := 400, errorField := some "Unsupported file type", filePath := none,
          filename := none, size := none, written := [(storedName, f.size)] }
      | .valid =>
        { status := 200, errorField := none,
          filePath := some (baseUrl ++ "/files/" ++ storedName),
          filename := some storedName, size := some f.size,
          written := [(storedName, f.size)] }

/-- Everything the delete route sends back. -/
structure DeleteOutcome where
  status : Nat
  errorField : Option String
  message : Option String
  filename : Option String
  size : Option Nat
deriving DecidableEq, Repr

/-- The target path of a delete request:
`path.join(__dirname, '..', VOLUME_PATH, filename)` — the plain join of
the storage root (`storageRoot` stands for
`path.join(__dirname, '..', VOLUME_PATH)`) with the single
request-supplied name. -/
def deleteTargetPath (storageRoot : String) (filename : String) : String :=
  pathJoin storageRoot filename

/-- The delete route `router.delete('/delete', authenticate, validateFilename, handler)`
from `src/routes/files.js`. The filesystem is `fs : path → Option size`
(`existsSync` / `statSync`), and `denied p` says the OS raises `EACCES`
when the handler stats/unlinks `p`. Returns the response together with
the filesystem after the request; `statSync` runs before `unlinkSync`,
so a 200 response carries the size measured before removal. -/
def deleteRoute (authToken : Option String) (storageRoot : String)
    (header : Option String) (filenameQ : QueryVal)
    (fs : String → Option Nat) (denied : String → Bool) :
    DeleteOutcome × (String → Option Nat) :=
  match authenticate authToken header with
  | .missingAuth =>
    ({ status := 401, errorField := some "Missing authorization", message := none,
       filename := none, size := none }, fs)
  | .invalidToken =>
    ({ status := 401, errorField := some "Invalid token", message := none,
       filename := none, size := none }, fs)
  | .pass =>
    match validateFilename filenameQ with
    | .missingParameter =>
      ({ status := 400, errorField := some "Missing required parameter", message := none,
         filename := none, size := none }, fs)
    | .invalidParameter =>
      ({ status := 400, errorField := some "Invalid parameter", message := none,
         filename := none, size := none }, fs)
    | .ok name =>
      let p := deleteTargetPath storageRoot name
      match fs p with
      | none =>
        ({ status := 404, errorField := some "File not found", message := none,
           filename := none, size := none }, fs)
      | some sz =>
        if denied p then
          ({ status := 403, errorField := some "Permission denied", message := none,
             filename := none, size := none }, fs)
        else
          ({ status := 200, errorField := none,
             message := some "File successfully deleted",
             filename := some name, size := some sz },
           fun q => if q = p then none else fs q)

example : extname "photo.jpg" = ".jpg" := by decide
example : extname "PHOTO.JPG" = ".JPG" := by decide
example : extname "noext" = "" := by decide
example : extname ".bashrc" = "" := by decide
example : extname "a." = "." := by decide
example : extname ".." = "" := by decide
example : pathJoin "a" "b" = "a/b" := by decide
example : pathJoin "/srv/app/uploads" "../../etc/passwd" = "/srv/etc/passwd" := by decide
example : pathJoin "/srv/uploads" "x.png" = "/srv/uploads/x.png" := by decide

example : authenticate (some "s3cret") (some "Bearer s3cret") = .pass := by decide

example : authenticate none (some "Bearer undefined") = .pass := by decide

example : validateFilename (.str "   ") = .invalidParameter := by decide

example : validateFilename (.str "") = .missingParameter := by decide

example : errorHandler fileFilterErrorObj = (500, "Internal server error") := by decide

/-- A string beginning with the scheme prefix is never empty. -/
theorem bearer_append_ne_empty (x : String) : "Bearer " ++ x ≠ "" := by
  intro h
  have h2 := congrArg String.data h
  simp [String.data_append] at h2

/-- The authenticator passes exactly one header value: the literal
concatenation of the scheme prefix and the rendered secret. -/
theorem authenticate_eq_pass_iff (tok : Option String) (header : Option String) :
    authenticate tok header = AuthResult.pass ↔
      header = some ("Bearer " ++ jsTemplate tok) := by
  cases header with
  | none => simp [authenticate]
  | some t =>
    simp only [authenticate, Option.some.injEq]
    split_ifs with h0 h1
    · subst h0
      constructor
      · intro h; exact absurd h (by decide)
      · intro h; exact absurd h.symm (bearer_append_ne_empty _)
    · constructor
      · intro h; exact absurd h (by decide)
      · intro h; exact absurd h h1
    · rw [not_not] at h1
      simp [h1]

/-- When authentication fails, the upload route responds 401 before the
multipart stage runs, and nothing is written. -/
theorem uploadRoute_auth_fail (tok : Option String) (base : String)
    (header : Option String) (parts : List FilePart) (uuid : String)
    (h : authenticate tok header ≠ AuthResult.pass) :
    (uploadRoute tok base header parts uuid).status = 401 ∧
    (uploadRoute tok base header parts uuid).written = [] := by
  unfold uploadRoute
  cases hA : authenticate tok header with
  | missingAuth => simp
  | invalidToken => simp
  | pass => exact absurd hA h

/-- When authentication fails, the delete route responds 401 and leaves
the filesystem untouched. -/
theorem deleteRoute_auth_fail (tok : Option String) (root : String)
    (header : Option String) (q : QueryVal)
    (fs : String → Option Nat) (denied : String → Bool)
    (h : authenticate tok header ≠ AuthResult.pass) :
    (deleteRoute tok root header q fs denied).fst.status = 401 ∧
    (deleteRoute tok root header q fs denied).snd = fs := by
  unfold deleteRoute
  cases hA : authenticate tok header with
  | missingAuth => simp
  | invalidToken => simp
  | pass => exact absurd hA h

/-- A file accepted by the multipart stage came in under the field name
"file", passed the MIME filter, and is within the size limit. -/
theorem multerSingleFile_accepted {parts : List FilePart} {f : FilePart}
    (h : multerSingleFile parts = MulterResult.accepted f) :
    f.fieldname = "file" ∧ fileFilterAccepts f = true ∧ f.size ≤ fileSizeLimit := by
  have hone : ∀ g, processFilePart g = MulterResult.accepted f →
      f.fieldname = "file" ∧ fileFilterAccepts f = true ∧ f.size ≤ fileSizeLimit := by
    intro g hg
    unfold processFilePart at hg
    by_cases hf : g.fieldname ≠ "file"
    · rw [if_pos hf] at hg; exact MulterResult.noConfusion hg
    · rw [if_neg hf] at hg
      by_cases hmt : (!(fileFilterAccepts g)) = true
      · rw [if_pos hmt] at hg; exact MulterResult.noConfusion hg
      · rw [if_neg hmt] at hg
        by_cases hsz : g.size > fileSizeLimit
        · rw [if_pos hsz] at hg; exact MulterResult.noConfusion hg
        · rw [if_neg hsz] at hg
          injection hg with hgf
          subst hgf
          exact ⟨not_not.mp hf, by simpa using hmt, Nat.not_lt.mp hsz⟩
  match parts, h with
  | [g], h => exact hone g h
  | g :: g2 :: rest, h =>
    cases hp : processFilePart g <;> simp [multerSingleFile, hp] at h

/-- A string has length zero exactly when it is empty. -/
theorem string_length_eq_zero_iff (s : String) : s.length = 0 ↔ s = "" := by
  constructor
  · intro h
    rw [String.ext_iff]
    have h2 : s.data.length = 0 := h
    simpa using List.length_eq_zero.mp h2
  · intro h; subst h; rfl

/-- C1 counterexample: with AUTH_TOKEN unset, the template literal
renders the expected header as the literal string "Bearer undefined", so
a request carrying exactly that header passes the authenticator, and an
upload carrying it reaches the storage operation and persists a file —
refuting "authentication fails for every possible Authorization header
value". -/
theorem c1_counterexample :
    authenticate none (some "Bearer undefined") = AuthResult.pass ∧
    (uploadRoute none "http://localhost:3000" (some "Bearer undefined")
        [{ fieldname := "file", originalname := "a.png", mimetype := "image/png", size := 7 }]
        "3f2a").status = 200 ∧
    (uploadRoute none "http://localhost:3000" (some "Bearer undefined")
        [{ fieldname := "file", originalname := "a.png", mimetype := "image/png", size := 7 }]
        "3f2a").written = [("3f2a.png", 7)] := by decide

/-- C1 (amended): if the configured auth secret is undefined, then for
every Authorization header value other than the literal string
"Bearer undefined" the authenticator fails, the upload route responds
401 writing nothing, and the delete route responds 401 leaving the
filesystem unchanged. -/
theorem c1_amended_unset_token_rejects_all_but_bearer_undefined
    (header : Option String) (h : header ≠ some "Bearer undefined") :
    authenticate none header ≠ AuthResult.pass ∧
    (∀ base parts uuid,
      (uploadRoute none base header parts uuid).status = 401 ∧
      (uploadRoute none base header parts uuid).written = []) ∧
    (∀ root q fs denied,
      (deleteRoute none root header q fs denied).fst.status = 401 ∧
      (deleteRoute none root header q fs denied).snd = fs) := by
  have hb : ("Bearer " ++ jsTemplate none) = "Bearer undefined" := by decide
  have hne : authenticate none header ≠ AuthResult.pass := by
    intro hp
    rw [authenticate_eq_pass_iff, hb] at hp
    exact h hp
  exact ⟨hne,
    fun base parts uuid => uploadRoute_auth_fail none base header parts uuid hne,
    fun root q fs denied => deleteRoute_auth_fail none root header q fs denied hne⟩

/-- Witness for the amended C1 at a concrete wrong header. -/
theorem c1_amended_unset_token_witness :
    (uploadRoute none "http://localhost:3000" (some "Bearer guess") [] "u").status = 401 :=
  ((c1_amended_unset_token_rejects_all_but_bearer_undefined
    (some "Bearer guess") (by decide)).2.1 "http://localhost:3000" [] "u").1

/-- C3 counterexample: with the secret configured, a present but empty
Authorization header is falsy in JS, so the authenticator reports the
missing-header error (Unauthorized, "Missing authorization") even though
the header is present and mismatched — refuting "present but not equal
... fails with kind InvalidCredential". -/
theorem c3_counterexample :
    (some "" : Option String) ≠ none ∧
    ("" : String) ≠ "Bearer " ++ jsTemplate (some "s3cret") ∧
    authenticate (some "s3cret") (some "") ≠ AuthResult.invalidToken ∧
    authenticate (some "s3cret") (some "") = AuthResult.missingAuth := by decide

/-- C3 (amended): with a configured secret, an absent or empty
Authorization header fails with the Unauthorized kind
("Missing authorization", 401); a present non-empty header different
from the concatenation of the scheme prefix and the secret fails with
the InvalidCredential kind ("Invalid token", 401); the exact
concatenation passes through to the next stage. -/
theorem c3_amended_authenticate_cases (secret : String) :
    authenticate (some secret) none = AuthResult.missingAuth ∧
    authenticate (some secret) (some "") = AuthResult.missingAuth ∧
    (∀ t : String, t ≠ "" → t ≠ "Bearer " ++ secret →
      authenticate (some secret) (some t) = AuthResult.invalidToken) ∧
    authenticate (some secret) (some ("Bearer " ++ secret)) = AuthResult.pass := by
  refine ⟨rfl, by simp [authenticate], fun t h0 h1 => ?_, ?_⟩
  · simp [authenticate, jsTemplate, h0, h1]
  · rw [authenticate_eq_pass_iff]
    rfl

/-- Witness for the amended C3: mismatched non-empty header at a
concrete secret yields the invalid-token failure. -/
theorem c3_amended_authenticate_witness :
    authenticate (some "s3cret") (some "Bearer nope") = AuthResult.invalidToken :=
  (c3_amended_authenticate_cases "s3cret").2.2.1 "Bearer nope" (by decide) (by decide)

/-- C5: an upload request that fails authentication (missing or
mismatched bearer token) is answered 401 and writes no file into the
storage root. -/
theorem c5_upload_auth_failure_writes_nothing (tok : Option String) (base : String)
    (header : Option String) (parts : List FilePart) (uuid : String)
    (h : authenticate tok header ≠ AuthResult.pass) :
    (uploadRoute tok base header parts uuid).status = 401 ∧
    (uploadRoute tok base header parts uuid).written = [] :=
  uploadRoute_auth_fail tok base header parts uuid h

/-- Witness for C5 at a concrete mismatched token. -/
theorem c5_upload_auth_failure_witness :
    (uploadRoute (some "tok") "http://localhost:3000" (some "Bearer wrong")
      [{ fieldname := "file", originalname := "a.png", mimetype := "image/png", size := 7 }]
      "u").status = 401 ∧
    (uploadRoute (some "tok") "http://localhost:3000" (some "Bearer wrong")
      [{ fieldname := "file", originalname := "a.png", mimetype := "image/png", size := 7 }]
      "u").written = [] :=
  c5_upload_auth_failure_writes_nothing (some "tok") "http://localhost:3000"
    (some "Bearer wrong")
    [{ fieldname := "file", originalname := "a.png", mimetype := "image/png", size := 7 }]
    "u" (by decide)

/-- C2 (code bug): for an authenticated upload whose file part declares
the MIME type application/x-msdownload, the repository's own
validateFileUpload middleware classifies it 400 "Unsupported file type"
(matching the route's swagger documentation), but the multer fileFilter
aborts the parse first with a plain Error that the central errorHandler
cannot classify, so the actual response is 500 "Internal server error".
No file is written by the request — that part of the claim holds. -/
theorem c2_unsupported_mimetype_yields_500 :
    validateFileUpload (some (FilePart.mk "file" "run.exe" "application/x-msdownload" 100)) =
      UploadValidation.unsupportedFileType ∧
    multerSingleFile [FilePart.mk "file" "run.exe" "application/x-msdownload" 100] =
      MulterResult.fileFilterError ∧
    uploadRoute (some "tok") "http://localhost:3000" (some "Bearer tok")
      [FilePart.mk "file" "run.exe" "application/x-msdownload" 100] "u1" =
      { status := 500, errorField := some "Internal server error", filePath := none,
        filename := none, size := none, written := [] } := by decide

/-- C4 counterexample: a filename query parameter that is present with
the empty-string value is falsy in JS, so the validator reports
MissingParameter even though the parameter is not absent — refuting both
"MissingParameter exactly when absent" and "InvalidParameter exactly
when present but empty after trimming". -/
theorem c4_counterexample :
    QueryVal.str "" ≠ QueryVal.undef ∧
    jsTrim "" = "" ∧
    validateFilename (QueryVal.str "") = FilenameCheck.missingParameter ∧
    validateFilename (QueryVal.str "") ≠ FilenameCheck.invalidParameter := by decide

/-- C4 (amended): the validator fails with MissingParameter exactly when
the filename query value is absent or falsy (the empty string); for a
present non-empty string value it fails with InvalidParameter exactly
when the value trims to the empty string; otherwise it succeeds and
exposes the trimmed value to the downstream handler. -/
theorem c4_amended_validate_filename_cases :
    (∀ v, validateFilename v = FilenameCheck.missingParameter ↔
      (v = QueryVal.undef ∨ v = QueryVal.str "")) ∧
    (∀ s, s ≠ "" →
      (validateFilename (QueryVal.str s) = FilenameCheck.invalidParameter ↔ jsTrim s = "")) ∧
    (∀ s, s ≠ "" → jsTrim s ≠ "" →
      validateFilename (QueryVal.str s) = FilenameCheck.ok (jsTrim s)) := by
  refine ⟨fun v => ?_, fun s hs => ?_, fun s hs ht => ?_⟩
  · cases v with
    | undef => simp [validateFilename, jsTruthyQuery]
    | str s =>
      by_cases hs : s = ""
      · subst hs; simp [validateFilename, jsTruthyQuery]
      · simp only [validateFilename, jsTruthyQuery, hs]
        constructor
        · intro h
          by_cases hl : (jsTrim s).length = 0 <;>
            simp [hs, hl] at h
        · intro h
          rcases h with h | h <;> simp_all
    | arr vs => simp [validateFilename, jsTruthyQuery]
    | obj fields => simp [validateFilename, jsTruthyQuery]
  · simp only [validateFilename, jsTruthyQuery, hs]
    constructor
    · intro h
      by_cases hl : (jsTrim s).length = 0
      · exact (string_length_eq_zero_iff (jsTrim s)).mp hl
      · simp [hs, hl] at h
    · intro h
      simp [hs, h]
  · simp [validateFilename, jsTruthyQuery, hs, string_length_eq_zero_iff, ht]

/-- Witness for the amended C4: a padded name passes validation with the
trimmed value exposed downstream. -/
theorem c4_amended_validate_filename_witness :
    validateFilename (QueryVal.str "  report.pdf  ") = FilenameCheck.ok "report.pdf" := by
  have h := c4_amended_validate_filename_cases.2.2 "  report.pdf  " (by decide) (by decide)
  rw [h]
  decide

/-- C10: a filename query value that is present but not a string (an
array from a repeated parameter, or a nested object) is truthy and
fails the typeof check, so the validator answers 400 InvalidParameter —
and an authenticated delete request carrying such a value is answered
400, never a crash or a 500. -/
theorem c10_non_string_filename_rejected (v : QueryVal)
    (h1 : v ≠ QueryVal.undef) (h2 : isStringVal v = false) :
    validateFilename v = FilenameCheck.invalidParameter ∧
    (∀ tok root header fs denied, authenticate tok header = AuthResult.pass →
      (deleteRoute tok root header v fs denied).fst.status = 400 ∧
      (deleteRoute tok root header v fs denied).fst.errorField = some "Invalid parameter" ∧
      (deleteRoute tok root header v fs denied).snd = fs) := by
  have hv : validateFilename v = FilenameCheck.invalidParameter := by
    cases v with
    | undef => exact absurd rfl h1
    | str s => simp [isStringVal] at h2
    | arr vs => simp [validateFilename, jsTruthyQuery]
    | obj fields => simp [validateFilename, jsTruthyQuery]
  refine ⟨hv, fun tok root header fs denied hauth => ?_⟩
  simp [deleteRoute, hauth, hv]

/-- Witness for C10 at a repeated filename parameter. -/
theorem c10_non_string_filename_witness :
    validateFilename (QueryVal.arr ["a.txt", "b.txt"]) = FilenameCheck.invalidParameter :=
  (c10_non_string_filename_rejected (QueryVal.arr ["a.txt", "b.txt"])
    (by decide) (by decide)).1

/-- C6: every successful upload stores the file under the fresh
identifier concatenated with the original name's extension (as computed
by path.extname: case-preserved, leading dot included), and the response
filePath is the configured base URL followed by "/files/" followed by
that generated filename. -/
theorem c6_generated_name_and_file_path (tok : Option String) (base : String)
    (header : Option String) (parts : List FilePart) (uuid : String) (f : FilePart)
    (hauth : authenticate tok header = AuthResult.pass)
    (hm : multerSingleFile parts = MulterResult.accepted f) :
    (uploadRoute tok base header parts uuid).status = 200 ∧
    (uploadRoute tok base header parts uuid).filename =
      some (uuid ++ extname f.originalname) ∧
    (uploadRoute tok base header parts uuid).filePath =
      some (base ++ "/files/" ++ (uuid ++ extname f.originalname)) ∧
    (uploadRoute tok base header parts uuid).written =
      [(uuid ++ extname f.originalname, f.size)] := by
  have hacc : allowedMimeTypes.contains f.mimetype = true :=
    (multerSingleFile_accepted hm).2.1
  have hmem : f.mimetype ∈ allowedMimeTypes := by simpa using hacc
  simp [uploadRoute, hauth, hm, validateFileUpload, hmem, generatedFilename]

/-- Witness for C6: a concrete upload of Vacation.JPG keeps the
extension's case and the leading dot. -/
theorem c6_generated_name_witness :
    (uploadRoute (some "tok") "http://localhost:3000" (some "Bearer tok")
      [FilePart.mk "file" "Vacation.JPG" "image/jpeg" 42] "9d1c").filePath =
      some "http://localhost:3000/files/9d1c.JPG" := by
  have h := c6_generated_name_and_file_path (some "tok") "http://localhost:3000"
    (some "Bearer tok") [FilePart.mk "file" "Vacation.JPG" "image/jpeg" 42] "9d1c"
    (FilePart.mk "file" "Vacation.JPG" "image/jpeg" 42) (by decide) (by decide)
  rw [h.2.2.1]
  decide

/-- C7: for an authenticated, validated delete request with target path
p: if p does not exist the response is 404 File not found and the
filesystem is untouched; if the OS denies the removal the response is
403 Permission denied and the file remains; otherwise the response is
200 carrying the trimmed filename and the size measured before removal,
the target is gone afterwards, and no other path is affected. -/
theorem c7_delete_outcomes (tok : Option String) (root : String)
    (header : Option String) (q : QueryVal) (fs : String → Option Nat)
    (denied : String → Bool) (name : String)
    (hauth : authenticate tok header = AuthResult.pass)
    (hval : validateFilename q = FilenameCheck.ok name) :
    (fs (deleteTargetPath root name) = none →
      (deleteRoute tok root header q fs denied).fst.status = 404 ∧
      (deleteRoute tok root header q fs denied).fst.errorField = some "File not found" ∧
      (deleteRoute tok root header q fs denied).snd = fs) ∧
    (∀ sz, fs (deleteTargetPath root name) = some sz →
      denied (deleteTargetPath root name) = true →
      (deleteRoute tok root header q fs denied).fst.status = 403 ∧
      (deleteRoute tok root header q fs denied).fst.errorField = some "Permission denied" ∧
      (deleteRoute tok root header q fs denied).snd = fs) ∧
    (∀ sz, fs (deleteTargetPath root name) = some sz →
      denied (deleteTargetPath root name) = false →
      (deleteRoute tok root header q fs denied).fst.status = 200 ∧
      (deleteRoute tok root header q fs denied).fst.message =
        some "File successfully deleted" ∧
      (deleteRoute tok root header q fs denied).fst.filename = some name ∧
      (deleteRoute tok root header q fs denied).fst.size = some sz ∧
      (deleteRoute tok root header q fs denied).snd (deleteTargetPath root name) = none ∧
      (∀ p, p ≠ deleteTargetPath root name →
        (deleteRoute tok root header q fs denied).snd p = fs p)) := by
  refine ⟨fun hfs => ?_, fun sz hfs hd => ?_, fun sz hfs hd => ?_⟩
  · simp [deleteRoute, hauth, hval, hfs]
  · simp [deleteRoute, hauth, hval, hfs, hd]
  · simp only [deleteRoute, hauth, hval, hfs, hd]
    refine ⟨rfl, rfl, rfl, rfl, by simp, fun p hp => by simp [hp]⟩

/-- Witness for C7: deleting an existing, permitted file at a concrete
filesystem returns 200 with the prior size. -/
theorem c7_delete_outcomes_witness :
    (deleteRoute (some "tok") "/srv/uploads" (some "Bearer tok") (QueryVal.str "a.txt")
      (fun p => if p = "/srv/uploads/a.txt" then some 5 else none)
      (fun _ => false)).fst.status = 200 ∧
    (deleteRoute (some "tok") "/srv/uploads" (some "Bearer tok") (QueryVal.str "a.txt")
      (fun p => if p = "/srv/uploads/a.txt" then some 5 else none)
      (fun _ => false)).fst.size = some 5 :=
  have h := (c7_delete_outcomes (some "tok") "/srv/uploads" (some "Bearer tok")
    (QueryVal.str "a.txt")
    (fun p => if p = "/srv/uploads/a.txt" then some 5 else none)
    (fun _ => false) "a.txt" (by decide) (by decide)).2.2 5 (by decide) rfl
  ⟨h.1, h.2.2.2.1⟩

/-- C8: with authentication passed, the multipart layer itself settles
the three limit violations before the upload validator can run — an
oversized part under the expected field with an allowed type is answered
413 "File too large"; a second file part after an acceptable first one
is answered 413 "Too many files"; a part under a field other than
"file" is answered 400 "Invalid field name". In each case the multer
error goes to the central errorHandler and nothing is persisted. -/
theorem c8_multipart_limits (tok : Option String) (base : String)
    (header : Option String) (uuid : String) (f g : FilePart) (rest : List FilePart)
    (hauth : authenticate tok header = AuthResult.pass) :
    (f.fieldname = "file" → fileFilterAccepts f = true → f.size > fileSizeLimit →
      (uploadRoute tok base header [f] uuid).status = 413 ∧
      (uploadRoute tok base header [f] uuid).errorField = some "File too large" ∧
      (uploadRoute tok base header [f] uuid).written = []) ∧
    (f.fieldname = "file" → fileFilterAccepts f = true → f.size ≤ fileSizeLimit →
      (uploadRoute tok base header (f :: g :: rest) uuid).status = 413 ∧
      (uploadRoute tok base header (f :: g :: rest) uuid).errorField =
        some "Too many files" ∧
      (uploadRoute tok base header (f :: g :: rest) uuid).written = []) ∧
    (f.fieldname ≠ "file" →
      (uploadRoute tok base header [f] uuid).status = 400 ∧
      (uploadRoute tok base header [f] uuid).errorField = some "Invalid field name" ∧
      (uploadRoute tok base header [f] uuid).written = []) := by
  refine ⟨fun hf hmt hsz => ?_, fun hf hmt hsz => ?_, fun hf => ?_⟩
  · have hm : multerSingleFile [f] = MulterResult.limitFileSize := by
      simp [multerSingleFile, processFilePart, hf, hmt, hsz]
    simp [uploadRoute, hauth, hm, errorReply, errorHandler, multerErrorObj]
  · have hm : multerSingleFile (f :: g :: rest) = MulterResult.limitFileCount := by
      have hsz2 : ¬ (f.size > fileSizeLimit) := Nat.not_lt.mpr hsz
      simp [multerSingleFile, processFilePart, hf, hmt, hsz2]
    simp [uploadRoute, hauth, hm, errorReply, errorHandler, multerErrorObj]
  · have hm : multerSingleFile [f] = MulterResult.limitUnexpectedFile := by
      simp [multerSingleFile, processFilePart, hf]
    simp [uploadRoute, hauth, hm, errorReply, errorHandler, multerErrorObj]

/-- Witness for C8: an 11 MiB PNG under field "file" is answered 413. -/
theorem c8_multipart_limits_witness :
    (uploadRoute (some "tok") "http://localhost:3000" (some "Bearer tok")
      [FilePart.mk "file" "big.png" "image/png" (11 * 1024 * 1024)] "u").status = 413 :=
  ((c8_multipart_limits (some "tok") "http://localhost:3000" (some "Bearer tok") "u"
    (FilePart.mk "file" "big.png" "image/png" (11 * 1024 * 1024))
    (FilePart.mk "file" "b" "image/png" 1) [] (by decide)).1
    (by decide) (by decide) (by decide)).1

/-- A segment that names a real directory entry: non-empty and not one
of the special segments "." and "..". -/
def plainSeg (s : String) : Prop :=
  s ≠ "" ∧ s ≠ "." ∧ s ≠ ".."

/-- Folding pushSeg over plain segments just stacks them in reverse. -/
theorem foldl_pushSeg_plain (aa : Bool) :
    ∀ (rs : List String) (stack : List String), (∀ s ∈ rs, plainSeg s) →
      rs.foldl (pushSeg aa) stack = rs.reverse ++ stack := by
  intro rs
  induction rs with
  | nil => intro stack h; simp
  | cons r rs ih =>
    intro stack h
    have hr : plainSeg r := h r (by simp)
    have hstep : pushSeg aa stack r = r :: stack := by
      unfold pushSeg
      rw [if_neg, if_neg hr.2.2]
      simp [hr.1, hr.2.1]
    rw [List.foldl_cons, hstep, ih (r :: stack) (fun s hs => h s (by simp [hs]))]
    simp

/-- C9: the delete target is the plain path.join of the storage root
with the single trimmed filename; the validator accepts names carrying
separator and parent-directory components unchanged; and such a name
resolves outside the flat storage-root namespace: joining any non-empty
root with a name of the form "../leaf" yields a path whose segments can
never be the root's segments extended by one entry (shown concretely on
strings as well). -/
theorem c9_plain_join_traversal :
    (∀ root name, deleteTargetPath root name = pathJoin root name) ∧
    validateFilename (QueryVal.str "../../etc/passwd") =
      FilenameCheck.ok "../../etc/passwd" ∧
    pathJoin "/srv/app/uploads" "../secret.txt" = "/srv/app/secret.txt" ∧
    (∀ (rs : List String) (leaf : String), (∀ s ∈ rs, plainSeg s) → rs ≠ [] →
      plainSeg leaf →
      ∀ t, normalizeSegs false (rs ++ [".."] ++ [leaf]) ≠ rs ++ [t]) := by
  refine ⟨fun root name => rfl, by decide, by decide,
    fun rs leaf hplain hne hleaf t heq => ?_⟩
  have hfold : (rs ++ [".."] ++ [leaf]).foldl (pushSeg false) [] =
      leaf :: (rs.reverse).tail := by
    rw [List.append_assoc, List.foldl_append, foldl_pushSeg_plain false rs [] hplain]
    obtain ⟨r, rest, hrr⟩ : ∃ r rest, rs.reverse = r :: rest := by
      rcases hrev : rs.reverse with _ | ⟨r, rest⟩
      · exact absurd (by simpa using congrArg List.reverse hrev) hne
      · exact ⟨r, rest, rfl⟩
    have hrplain : plainSeg r := by
      have : r ∈ rs := by
        have : r ∈ rs.reverse := by rw [hrr]; simp
        simpa using this
      exact hplain r this
    rw [List.append_nil, hrr]
    have hpop : pushSeg false (r :: rest) ".." = rest := by
      simp [pushSeg, hrplain.2.2]
    have hpush : pushSeg false rest leaf = leaf :: rest := by
      simp [pushSeg, hleaf.1, hleaf.2.1, hleaf.2.2]
    simp [hpop, hpush]
  have hlen := congrArg List.length heq
  rw [normalizeSegs, hfold] at hlen
  simp at hlen
  have hpos : 0 < rs.length := List.length_pos.mpr hne
  omega

/-- Witness for C9's general escape clause at a concrete root. -/
theorem c9_plain_join_traversal_witness :
    normalizeSegs false (["app", "uploads"] ++ [".."] ++ ["x"]) ≠
      ["app", "uploads", "y"] :=
  c9_plain_join_traversal.2.2.2 ["app", "uploads"] "x"
    (by intro s hs; fin_cases hs <;> exact ⟨by decide, by decide, by decide⟩)
    (by decide) ⟨by decide, by decide, by decide⟩ "y"

end ChatMediaBucket
